import Mathlib

/-!
Shallow embedding of the connection-management and command-relay layer of
the poptech-sst browser extension (source: src/extension/background.js).

The background script is single-threaded and event-driven: every handler
(inbound WebSocket frame, UI command, alarm tick, lifecycle hook) runs to
completion without preemption.  We model the mutable globals and the two
storage areas as one explicit state record, and each handler as a pure
function from state to state plus its observable outputs: the envelopes
handed to broadcastToUI, and the JSON commands written to the socket.
Wall-clock timestamps (new Date().toLocaleTimeString) and the success or
failure of asynchronous connect/send operations are inputs of the model.
-/

namespace Background

/-- Untyped JSON primitive, used for loosely typed inbound fields such as
is_recording, which the code compares with strict equality against the
boolean true (is_recording === true). -/
inductive JVal where
  | bool (b : Bool)
  | str (s : String)
  | num (n : Int)
  | null
  deriving DecidableEq

/-- An inbound native message after successful JSON parsing.  Fields the
router consults; absent JSON fields are none (undefined). -/
structure NativeMsg where
  action : Option String
  status : Option String
  type : Option String
  is_recording : Option JVal
  text : Option String
  message : Option String
  deriving DecidableEq

/-- Message with every field absent. -/
def emptyMsg : NativeMsg :=
  { action := none, status := none, type := none,
    is_recording := none, text := none, message := none }

/-- WebSocket readyState values. -/
inductive ReadyState where
  | CONNECTING
  | OPEN
  | CLOSING
  | CLOSED
  deriving DecidableEq

/-- A WebSocket object: an identity plus its readyState. -/
structure Socket where
  id : Nat
  readyState : ReadyState
  deriving DecidableEq

/-- An outbound command written to the native socket:
JSON.stringify of an object with an action tag and optional data payload
(the untyped config forwarded by START_CAPTURE). -/
structure OutMsg where
  action : String
  data : Option String
  deriving DecidableEq

/-- Envelopes posted to the popup port by broadcastToUI or on attach.
Synthetic error and cleared envelopes reuse the NATIVE_APP_MESSAGE
constructor: they travel the same broadcast path as native messages. -/
inductive Envelope where
  | nativeAppMessage (data : NativeMsg)
  | initialState (isRecording : Bool) (transcript : String) (summary : String)
  deriving DecidableEq

/-- Wall-clock time of day, an input of the model wherever the code calls
new Date().toLocaleTimeString with the vi-VN locale (24-hour HH:MM:SS). -/
structure Time where
  hour : Nat
  minute : Nat
  second : Nat
  deriving DecidableEq

/-- Two-digit zero padding of a time component. -/
def pad2 (n : Nat) : String :=
  if n < 10 then "0" ++ toString n else toString n

/-- The HH:MM:SS string produced by toLocaleTimeString for the vi-VN
locale. -/
def fmtTime (t : Time) : String :=
  pad2 t.hour ++ ":" ++ pad2 t.minute ++ ":" ++ pad2 t.second

/-- The full state of the background script: the chrome.storage.session
area (isRecording, config), the chrome.storage.local area (transcript,
summary), the chrome.alarms health-check alarm, the popup port, and the
module-level globals nativeWebSocket and connectionPromise.  The field
connectsStarted counts evaluations of new WebSocket(NATIVE_WS_URL), and
nextAttemptId generates identities for connect attempts. -/
structure St where
  isRecording : Bool
  config : String
  transcript : String
  summary : String
  alarmActive : Bool
  popupAttached : Bool
  nativeWebSocket : Option Socket
  connectionPromise : Option Nat
  nextAttemptId : Nat
  connectsStarted : Nat
  deriving DecidableEq

/-- Effect of chrome.storage.session.set on the isRecording key, combined
with the chrome.storage.onChanged listener, which fires when the stored
value actually changes and then synchronizes the badge and the
health-check alarm: created when the flag becomes true, cleared when it
becomes false (badge and icon updates carry no state and are omitted). -/
def setIsRecordingStorage (b : Bool) (s : St) : St :=
  if b = s.isRecording then { s with isRecording := b }
  else { s with isRecording := b, alarmActive := b }

/-- The strict JavaScript comparison is_recording === true. -/
def strictEqTrue : Option JVal → Bool
  | some (JVal.bool true) => true
  | _ => false

/-- One timestamped transcript line, as built in updateTranscriptStorage. -/
def transcriptLine (t : Time) (text : String) : String :=
  "[" ++ fmtTime t ++ "] " ++ text

/-- Body of updateTranscriptStorage: reads the durable transcript, appends
the new timestamped line, separated by a newline unless the current
transcript is empty (falsy), and writes it back. -/
def updateTranscriptStorage (now : Time) (newText : String) (s : St) : St :=
  let finalLine := transcriptLine now newText
  let updated := (if s.transcript = "" then "" else s.transcript ++ "\n") ++ finalLine
  { s with transcript := updated }

/-- The summary snapshot written by the summary_update rule:
a bracketed timestamp, the literal sequence backslash-n from the template,
then the text. -/
def summaryBlock (now : Time) (text : String) : String :=
  "[" ++ fmtTime now ++ "] \n " ++ text

/-- The ws.onmessage dispatch after a successful JSON.parse: the else-if
chain over action/status/type, then the unconditional broadcastToUI of the
original message wrapped as NATIVE_APP_MESSAGE.  Where the code
interpolates message.text into a template string, an absent field prints
as the string undefined. -/
def routeMessage (now : Time) (m : NativeMsg) (s : St) : St × List Envelope :=
  let s1 :=
    if m.action = some "get_status" then
      setIsRecordingStorage (strictEqTrue m.is_recording) s
    else if m.status = some "error" then
      setIsRecordingStorage false s
    else if m.action = some "transcript" ∧ m.type = some "final" then
      updateTranscriptStorage now (m.text.getD "undefined") s
    else if m.action = some "summary_update" then
      { s with summary := summaryBlock now (m.text.getD "undefined") }
    else s
  (s1, [Envelope.nativeAppMessage m])

/-- The whole ws.onmessage handler: the try block wraps JSON.parse and the
dispatch, so an unparseable frame (parsed = none) is caught at the point
of parsing and only logged: no state mutation, no broadcast. -/
def onMessageFrame (now : Time) (parsed : Option NativeMsg) (s : St) :
    St × List Envelope :=
  match parsed with
  | none => (s, [])
  | some m => routeMessage now m s

/-- The ws.onclose handler: clears the shared socket reference and forces
isRecording to false through session storage. -/
def onSocketClose (s : St) : St :=
  setIsRecordingStorage false { s with nativeWebSocket := none }

/-- What a getWebSocket call hands back to its caller: either the already
open shared socket, returned immediately, or (a handle on) the pending
connect attempt identified by its attempt id. -/
inductive AcquireResult where
  | openSocket (id : Nat)
  | pendingAttempt (id : Nat)
  deriving DecidableEq

/-- The tail of getWebSocket once no open socket was found: if a
connectionPromise is in flight, return it; otherwise evaluate
new WebSocket(NATIVE_WS_URL), store the fresh promise, and return it. -/
def startOrJoinAttempt (s : St) : St × AcquireResult :=
  match s.connectionPromise with
  | some a => (s, AcquireResult.pendingAttempt a)
  | none =>
      ({ s with connectionPromise := some s.nextAttemptId,
                nextAttemptId := s.nextAttemptId + 1,
                connectsStarted := s.connectsStarted + 1 },
       AcquireResult.pendingAttempt s.nextAttemptId)

/-- The synchronous decision of getWebSocket: an open nativeWebSocket is
returned at once; otherwise the call joins or starts the single connect
attempt. -/
def getWebSocket (s : St) : St × AcquireResult :=
  match s.nativeWebSocket with
  | some sock =>
      if sock.readyState = ReadyState.OPEN then (s, AcquireResult.openSocket sock.id)
      else startOrJoinAttempt s
  | none => startOrJoinAttempt s

/-- A burst of n back-to-back getWebSocket calls with no intervening
open/error resolution, collecting the result seen by each caller. -/
def acquireMany : Nat → St → St × List AcquireResult
  | 0, s => (s, [])
  | n + 1, s =>
      let p := getWebSocket s
      let q := acquireMany n p.1
      (q.1, p.2 :: q.2)

/-- The ws.onopen callback of the pending attempt: stores the socket as
the shared instance (now OPEN), installs the listeners, and clears the
in-flight promise so later calls may connect anew. -/
def attemptOpen (sockId : Nat) (s : St) : St :=
  { s with nativeWebSocket := some { id := sockId, readyState := ReadyState.OPEN },
           connectionPromise := none }

/-- The ws.onerror callback of the pending attempt: clears the shared
instance and the in-flight promise, and the promise rejects. -/
def attemptError (s : St) : St :=
  { s with nativeWebSocket := none, connectionPromise := none }

/-- Outcome of one sendMessageToNative call, an input of the model that
abstracts the asynchronous await getWebSocket plus ws.send: either both
succeed, or the connect attempt rejects, or the transmit throws. -/
inductive SendOutcome where
  | ok
  | connectFail
  | transmitFail
  deriving DecidableEq

/-- The user-facing text of the synthetic connectivity-error broadcast. -/
def connectErrorText : String := "Không thể kết nối với ứng dụng native."

/-- The synthetic error envelope built in the catch block of
sendMessageToNative; it travels as a NATIVE_APP_MESSAGE like any native
frame. -/
def syntheticErrorEnvelope : Envelope :=
  Envelope.nativeAppMessage
    { emptyMsg with status := some "error", message := some connectErrorText }

/-- Body of sendMessageToNative: on success the stringified message is
written to the socket; on any failure the catch block broadcasts the
synthetic error envelope and forces isRecording to false, and nothing is
rethrown to the caller (the function is total and returns a state).
Results are (new state, envelopes broadcast, commands written). -/
def sendMessageToNative (outcome : SendOutcome) (msg : OutMsg) (s : St) :
    St × List Envelope × List OutMsg :=
  match outcome with
  | SendOutcome.ok => (s, [], [msg])
  | SendOutcome.connectFail => (setIsRecordingStorage false s, [syntheticErrorEnvelope], [])
  | SendOutcome.transmitFail => (setIsRecordingStorage false s, [syntheticErrorEnvelope], [])

/-- The five UI command envelopes received over the popup port, plus an
unrecognized default that falls through the switch. -/
inductive UICmd where
  | START_CAPTURE (config : Option String)
  | STOP_CAPTURE
  | CLEAR_TRANSCRIPT
  | GET_DEVICES
  | GET_STATUS
  | unrecognized
  deriving DecidableEq

/-- The synthetic cleared envelope broadcast by the CLEAR_TRANSCRIPT case. -/
def clearedEnvelope : Envelope :=
  Envelope.nativeAppMessage
    { emptyMsg with action := some "transcript", type := some "clear" }

/-- Body of handleUICommand: START/STOP/GET_DEVICES/GET_STATUS each map to
exactly one outbound native command and touch no state themselves;
CLEAR_TRANSCRIPT is handled locally, clearing both durable fields and
broadcasting the cleared envelope without contacting the native process. -/
def handleUICommand (outcome : SendOutcome) (c : UICmd) (s : St) :
    St × List Envelope × List OutMsg :=
  match c with
  | UICmd.START_CAPTURE cfg =>
      sendMessageToNative outcome { action := "start_capture", data := cfg } s
  | UICmd.STOP_CAPTURE =>
      sendMessageToNative outcome { action := "stop_capture", data := none } s
  | UICmd.CLEAR_TRANSCRIPT =>
      ({ s with transcript := "", summary := "" }, [clearedEnvelope], [])
  | UICmd.GET_DEVICES =>
      sendMessageToNative outcome { action := "get_devices", data := none } s
  | UICmd.GET_STATUS =>
      sendMessageToNative outcome { action := "get_status", data := none } s
  | UICmd.unrecognized => (s, [], [])

/-- The period of the websocket-health-check alarm, in minutes
(chrome.alarms.create with delayInMinutes and periodInMinutes both 0.3). -/
def alarmPeriodInMinutes : ℚ := 3 / 10

/-- The ping command sent by each health-check tick. -/
def pingMsg : OutMsg := { action := "ping", data := none }

/-- The chrome.alarms.onAlarm listener: a tick of the health-check alarm
(which exists only while it is active) sends one ping through
sendMessageToNative. -/
def onAlarmTick (outcome : SendOutcome) (s : St) : St × List Envelope × List OutMsg :=
  if s.alarmActive then sendMessageToNative outcome pingMsg s
  else (s, [], [])

/-- The shared body of the onStartup and onInstalled hooks: session state
resets to isRecording false and an empty config object, and the durable
transcript and summary reset to empty. -/
def lifecycleReset (s : St) : St :=
  let s1 := setIsRecordingStorage false s
  { s1 with config := "\x7b\x7d", transcript := "", summary := "" }

/-- The chrome.runtime.onConnect listener for the popup port: records the
port, posts INITIAL_STATE from current storage, then issues get_status and
get_devices through sendMessageToNative (each with its own outcome). -/
def onPopupConnect (o1 o2 : SendOutcome) (s : St) : St × List Envelope × List OutMsg :=
  let s0 := { s with popupAttached := true }
  let initEnv := Envelope.initialState s0.isRecording s0.transcript s0.summary
  let p := sendMessageToNative o1 { action := "get_status", data := none } s0
  let q := sendMessageToNative o2 { action := "get_devices", data := none } p.1
  (q.1, (initEnv :: p.2.1) ++ q.2.1, p.2.2 ++ q.2.2)

/-- The events that drive the background script, one per registered
handler. -/
inductive Ev where
  | frame (now : Time) (parsed : Option NativeMsg)
  | uiCommand (outcome : SendOutcome) (c : UICmd)
  | socketClosed
  | alarmTick (outcome : SendOutcome)
  | popupConnect (o1 o2 : SendOutcome)
  | popupDisconnect
  | browserStartup
  | extensionInstalled
  deriving DecidableEq

/-- One run-to-completion dispatch of an event to its handler. -/
def step (e : Ev) (s : St) : St × List Envelope × List OutMsg :=
  match e with
  | Ev.frame now parsed =>
      let p := onMessageFrame now parsed s
      (p.1, p.2, [])
  | Ev.uiCommand outcome c => handleUICommand outcome c s
  | Ev.socketClosed => (onSocketClose s, [], [])
  | Ev.alarmTick outcome => onAlarmTick outcome s
  | Ev.popupConnect o1 o2 => onPopupConnect o1 o2 s
  | Ev.popupDisconnect => ({ s with popupAttached := false }, [], [])
  | Ev.browserStartup => (lifecycleReset s, [], [])
  | Ev.extensionInstalled => (lifecycleReset s, [], [])

/-- The state right after the startup reset of a fresh browser run. -/
def initSt : St :=
  { isRecording := false, config := "\x7b\x7d", transcript := "", summary := "",
    alarmActive := false, popupAttached := false, nativeWebSocket := none,
    connectionPromise := none, nextAttemptId := 0, connectsStarted := 0 }

/-- Folding a list of events through the step function. -/
def run (evs : List Ev) (s : St) : St :=
  evs.foldl (fun acc e => (step e acc).1) s

/-- A final transcript segment carrying the given text. -/
def finalMsg (x : String) : NativeMsg :=
  { emptyMsg with action := some "transcript", type := some "final", text := some x }

/-- One durable-transcript write as a function of the current value: the
new line, preceded by a newline separator unless the current transcript is
empty (falsy in the source). -/
def appendLine (cur line : String) : String :=
  (if cur = "" then "" else cur ++ "\n") ++ line

/-- Lines joined by single newlines, no leading separator before the
first line: the shape the spec ascribes to the durable transcript. -/
def joinLines : List String → String
  | [] => ""
  | [l] => l
  | l :: l2 :: ls => l ++ "\n" ++ joinLines (l2 :: ls)

/-- Routing a batch of final transcript segments (timestamp, text) in
arrival order. -/
def routeFinals (items : List (Time × String)) (s : St) : St :=
  items.foldl (fun acc p => (routeMessage p.1 (finalMsg p.2) acc).1) s

/-- Predicate: the shared socket exists and its readyState is OPEN. -/
def hasOpenSocket (s : St) : Prop :=
  ∃ sock, s.nativeWebSocket = some sock ∧ sock.readyState = ReadyState.OPEN

/-- Events whose handlers are permitted to change isRecording: a routed
native message matching the status or error rule, the lifecycle resets,
the socket close handler, and any handler whose underlying send fails
(UI command, health-check ping, or the popup-attach refresh). -/
def allowedMutator : Ev → Prop
  | Ev.frame _ parsed =>
      match parsed with
      | some m => m.action = some "get_status" ∨ m.status = some "error"
      | none => False
  | Ev.uiCommand oc _ => ¬ oc = SendOutcome.ok
  | Ev.socketClosed => True
  | Ev.alarmTick oc => ¬ oc = SendOutcome.ok
  | Ev.popupConnect o1 o2 => ¬ o1 = SendOutcome.ok ∨ ¬ o2 = SendOutcome.ok
  | Ev.popupDisconnect => False
  | Ev.browserStartup => True
  | Ev.extensionInstalled => True

/-- Message matching both the get_status rule and the error rule. -/
def c1Msg : NativeMsg :=
  { emptyMsg with action := some "get_status", status := some "error",
                  is_recording := some (JVal.bool true) }

/-- Error message that also matches the final-transcript rule. -/
def c1wMsg : NativeMsg :=
  { emptyMsg with action := some "transcript", type := some "final",
                  status := some "error", text := some "x" }

/-- Recording state from which a failing send is attempted. -/
def c3St : St := { initSt with isRecording := true, alarmActive := true }

/-- Concrete get_status message whose is_recording field is the string
true rather than the boolean true. -/
def c7Msg : NativeMsg :=
  { emptyMsg with action := some "get_status", is_recording := some (JVal.str "true") }

/-- State that is recording with the health-check alarm active. -/
def c8St : St := { initSt with isRecording := true, alarmActive := true }

/-- Status report carrying the boolean true. -/
def c9Msg : NativeMsg :=
  { emptyMsg with action := some "get_status", is_recording := some (JVal.bool true) }

/-- Recording state with the health-check alarm active, for the tick
witness. -/
def c9St : St := { initSt with isRecording := true, alarmActive := true }

/-- Concrete interim transcript message. -/
def c10Msg : NativeMsg :=
  { emptyMsg with action := some "transcript", type := some "interim",
                  text := some "xin chao" }

/-! Basic lemmas about the storage write combined with the onChanged
listener. -/

theorem setIsRecording_isRecording (b : Bool) (s : St) :
    (setIsRecordingStorage b s).isRecording = b := by
  unfold setIsRecordingStorage
  split <;> rfl

theorem setIsRecording_transcript (b : Bool) (s : St) :
    (setIsRecordingStorage b s).transcript = s.transcript := by
  unfold setIsRecordingStorage
  split <;> rfl

theorem setIsRecording_summary (b : Bool) (s : St) :
    (setIsRecordingStorage b s).summary = s.summary := by
  unfold setIsRecordingStorage
  split <;> rfl

theorem setIsRecording_sync (b : Bool) (s : St)
    (h : s.alarmActive = s.isRecording) :
    (setIsRecordingStorage b s).alarmActive = (setIsRecordingStorage b s).isRecording := by
  by_cases hb : b = s.isRecording
  · simp [setIsRecordingStorage, hb, h.trans hb.symm]
  · simp [setIsRecordingStorage, hb]

theorem setIsRecording_alarm_change (b : Bool) (s : St)
    (h : ¬ (setIsRecordingStorage b s).alarmActive = s.alarmActive) :
    ¬ (setIsRecordingStorage b s).isRecording = s.isRecording ∧
    (setIsRecordingStorage b s).alarmActive = (setIsRecordingStorage b s).isRecording := by
  by_cases hb : b = s.isRecording
  · exfalso
    apply h
    simp [setIsRecordingStorage, hb]
  · constructor
    · simpa [setIsRecording_isRecording] using hb
    · simp [setIsRecordingStorage, hb]

/-- Characterization of the strict comparison used by the status rule. -/
theorem strictEqTrue_iff (o : Option JVal) :
    strictEqTrue o = true ↔ o = some (JVal.bool true) := by
  cases o with
  | none => simp [strictEqTrue]
  | some v =>
      cases v with
      | bool b => cases b <;> simp [strictEqTrue]
      | str s => simp [strictEqTrue]
      | num n => simp [strictEqTrue]
      | null => simp [strictEqTrue]

/-- C4: an inbound frame whose payload is not parseable as JSON is
dropped: the handler only logs, no session or durable state is mutated
and nothing is broadcast, leaving the state exactly as it was. -/
theorem C4_malformed_frame_dropped (now : Time) (s : St) :
    onMessageFrame now none s = (s, []) := rfl

/-- C7: on an inbound get_status message, isRecording is set to true
exactly when the is_recording field is the boolean true; absent or any
non-true value yields false. -/
theorem C7_get_status_strict_boolean (now : Time) (m : NativeMsg) (s : St)
    (h : m.action = some "get_status") :
    (routeMessage now m s).1.isRecording = strictEqTrue m.is_recording ∧
    (strictEqTrue m.is_recording = true ↔ m.is_recording = some (JVal.bool true)) := by
  refine ⟨?_, strictEqTrue_iff m.is_recording⟩
  simp only [routeMessage, h]
  simp [setIsRecording_isRecording]

/-- Witness for C7 at a concrete message: a string-valued is_recording is
treated as false. -/
theorem C7_witness :
    ((routeMessage ⟨9, 30, 0⟩ c7Msg initSt).1.isRecording = strictEqTrue c7Msg.is_recording ∧
      (strictEqTrue c7Msg.is_recording = true ↔ c7Msg.is_recording = some (JVal.bool true))) ∧
    strictEqTrue c7Msg.is_recording = false :=
  ⟨C7_get_status_strict_boolean ⟨9, 30, 0⟩ c7Msg initSt rfl, rfl⟩

/-- C10: a well-formed transcript message whose type is not final, and
which matches no other dispatch rule, leaves the whole state unchanged
while the full original message is still forwarded to the UI as a
NATIVE_APP_MESSAGE envelope. -/
theorem C10_interim_transcript_passthrough (now : Time) (m : NativeMsg) (s : St)
    (h1 : m.action = some "transcript") (h2 : ¬ m.type = some "final")
    (h3 : ¬ m.status = some "error") :
    (routeMessage now m s).1 = s ∧
    (routeMessage now m s).2 = [Envelope.nativeAppMessage m] := by
  unfold routeMessage
  rw [h1]
  simp [h2, h3]

/-- C3: when the connect attempt rejects or the transmit throws,
sendMessageToNative swallows the exception (it is a total function into
states), broadcasts the synthetic error envelope through the same
NATIVE_APP_MESSAGE path used for native frames, writes nothing to the
socket, and forces isRecording to false. -/
theorem C3_send_failure_contained (outcome : SendOutcome) (msg : OutMsg) (s : St)
    (h : ¬ outcome = SendOutcome.ok) :
    sendMessageToNative outcome msg s =
      (setIsRecordingStorage false s, [syntheticErrorEnvelope], []) ∧
    (sendMessageToNative outcome msg s).1.isRecording = false ∧
    syntheticErrorEnvelope =
      Envelope.nativeAppMessage
        { emptyMsg with status := some "error", message := some connectErrorText } := by
  cases outcome with
  | ok => exact absurd rfl h
  | connectFail => exact ⟨rfl, setIsRecording_isRecording false s, rfl⟩
  | transmitFail => exact ⟨rfl, setIsRecording_isRecording false s, rfl⟩

/-- Witness for C3 at a concrete failing send. -/
theorem C3_witness :
    (sendMessageToNative SendOutcome.connectFail
        { action := "start_capture", data := some "cfg" } c3St =
      (setIsRecordingStorage false c3St, [syntheticErrorEnvelope], []) ∧
    (sendMessageToNative SendOutcome.connectFail
        { action := "start_capture", data := some "cfg" } c3St).1.isRecording = false ∧
    syntheticErrorEnvelope =
      Envelope.nativeAppMessage
        { emptyMsg with status := some "error", message := some connectErrorText }) ∧
    c3St.isRecording = true :=
  ⟨C3_send_failure_contained SendOutcome.connectFail
      { action := "start_capture", data := some "cfg" } c3St (by decide), rfl⟩

/-- C1 counterexample: the claim says all matching dispatch rules fire, so
on a message with both action get_status and status error the error rule
would also run and leave isRecording false; the code evaluates the rules
as an else-if chain and only the first match runs, leaving isRecording
true here. -/
theorem C1_counterexample :
    c1Msg.action = some "get_status" ∧ c1Msg.status = some "error" ∧
    (routeMessage ⟨10, 0, 0⟩ c1Msg initSt).1.isRecording = true :=
  ⟨rfl, rfl, rfl⟩

/-- C1 amended: the four dispatch rules form a first-match priority chain;
on a message that also satisfies status equals error, the error rule runs
only when the get_status rule did not match, and the unconditional UI
forward fires either way. -/
theorem C1_first_match_priority (now : Time) (m : NativeMsg) (s : St)
    (h2 : m.status = some "error") :
    (routeMessage now m s).2 = [Envelope.nativeAppMessage m] ∧
    (m.action = some "get_status" →
      (routeMessage now m s).1 = setIsRecordingStorage (strictEqTrue m.is_recording) s) ∧
    (¬ m.action = some "get_status" →
      (routeMessage now m s).1 = setIsRecordingStorage false s) := by
  refine ⟨rfl, ?_, ?_⟩
  · intro h1
    simp [routeMessage, h1]
  · intro h1
    simp [routeMessage, h1, h2]

/-- Witness for the amended C1: an error frame that also looks like a
final transcript segment only runs the error rule (the transcript is not
touched). -/
theorem C1_witness :
    (routeMessage ⟨10, 0, 0⟩ c1wMsg initSt).1 = setIsRecordingStorage false initSt :=
  (C1_first_match_priority ⟨10, 0, 0⟩ c1wMsg initSt rfl).2.2 (by decide)

/-- Witness for C10 at a concrete interim message and the initial state. -/
theorem C10_witness :
    (routeMessage ⟨9, 30, 0⟩ c10Msg initSt).1 = initSt ∧
    (routeMessage ⟨9, 30, 0⟩ c10Msg initSt).2 = [Envelope.nativeAppMessage c10Msg] :=
  C10_interim_transcript_passthrough ⟨9, 30, 0⟩ c10Msg initSt rfl
    (by decide) (by decide)

/-! Transcript accumulation. -/

theorem updateTranscript_transcript (now : Time) (x : String) (s : St) :
    (updateTranscriptStorage now x s).transcript =
      appendLine s.transcript (transcriptLine now x) := rfl

theorem routeMessage_final (now : Time) (x : String) (s : St) :
    (routeMessage now (finalMsg x) s).1 = updateTranscriptStorage now x s := rfl

theorem append_newline_ne_empty (a b : String) : ¬ a ++ "\n" ++ b = "" := by
  intro hc
  have h := congrArg String.length hc
  simp [String.length_append] at h
  exact absurd h.1.2 (by decide)

theorem transcriptLine_ne_empty (t : Time) (x : String) : ¬ transcriptLine t x = "" := by
  intro hc
  have h := congrArg String.length hc
  rw [transcriptLine, String.length_append, String.length_append,
      String.length_append] at h
  have h1 : ("[" : String).length = 1 := rfl
  have h2 : ("" : String).length = 0 := rfl
  omega

theorem joinLines_glue (c l : String) (ls : List String) :
    joinLines ((c ++ "\n" ++ l) :: ls) = joinLines (c :: l :: ls) := by
  cases ls with
  | nil => rfl
  | cons x xs =>
      show c ++ "\n" ++ l ++ "\n" ++ joinLines (x :: xs) =
        c ++ "\n" ++ (l ++ "\n" ++ joinLines (x :: xs))
      simp [String.append_assoc]

theorem appendLine_foldl_ne (ls : List String) :
    ∀ c : String, ¬ c = "" → List.foldl appendLine c ls = joinLines (c :: ls) := by
  induction ls with
  | nil =>
      intro c hc
      rfl
  | cons l ls ih =>
      intro c hc
      have h1 : appendLine c l = c ++ "\n" ++ l := by
        simp [appendLine, hc]
      show List.foldl appendLine (appendLine c l) ls = _
      rw [h1, ih (c ++ "\n" ++ l) (append_newline_ne_empty c l), joinLines_glue]

theorem appendLine_foldl_empty (ls : List String) (h : ∀ l ∈ ls, ¬ l = "") :
    List.foldl appendLine "" ls = joinLines ls := by
  cases ls with
  | nil => rfl
  | cons l ls =>
      have h1 : appendLine "" l = l := rfl
      show List.foldl appendLine (appendLine "" l) ls = _
      rw [h1]
      exact appendLine_foldl_ne ls l (h l (by simp))

theorem routeFinals_transcript (items : List (Time × String)) :
    ∀ s : St, (routeFinals items s).transcript =
      List.foldl appendLine s.transcript
        (items.map fun p => transcriptLine p.1 p.2) := by
  induction items with
  | nil =>
      intro s
      rfl
  | cons p ps ih =>
      intro s
      show (routeFinals ps (updateTranscriptStorage p.1 p.2 s)).transcript = _
      rw [ih, updateTranscript_transcript]
      rfl

/-- C5: each final transcript segment appends one timestamped line to the
durable transcript; starting from an empty transcript, a batch of
segments yields exactly their formatted lines joined by single newlines,
in arrival order and with no leading separator; appending to a non-empty
transcript inserts exactly one newline before the new line. -/
theorem C5_transcript_order_and_format (items : List (Time × String)) (s : St)
    (h : s.transcript = "") :
    (routeFinals items s).transcript =
      joinLines (items.map fun p => transcriptLine p.1 p.2) ∧
    (∀ (now : Time) (x : String) (s2 : St), ¬ s2.transcript = "" →
      (routeMessage now (finalMsg x) s2).1.transcript =
        s2.transcript ++ "\n" ++ transcriptLine now x) := by
  constructor
  · rw [routeFinals_transcript, h]
    apply appendLine_foldl_empty
    intro l hl
    rw [List.mem_map] at hl
    obtain ⟨p, hp, rfl⟩ := hl
    exact transcriptLine_ne_empty p.1 p.2
  · intro now x s2 h2
    rw [routeMessage_final, updateTranscript_transcript]
    simp [appendLine, h2]

/-- Witness for C5: the segments hello then world arriving at successive
times produce exactly two timestamped lines in that order. -/
theorem C5_witness :
    (routeFinals [(⟨10, 0, 0⟩, "hello"), (⟨10, 0, 1⟩, "world")] initSt).transcript =
      "[10:00:00] hello\n[10:00:01] world" :=
  (C5_transcript_order_and_format
      [(⟨10, 0, 0⟩, "hello"), (⟨10, 0, 1⟩, "world")] initSt rfl).1.trans rfl

/-- C6: CLEAR_TRANSCRIPT is handled locally: both durable fields become
empty, no command is written to the native socket, exactly the synthetic
cleared envelope is broadcast, and a following final transcript segment
leaves the durable transcript equal to exactly that one formatted line. -/
theorem C6_clear_then_final (outcome : SendOutcome) (s : St) (now : Time) (x : String) :
    (handleUICommand outcome UICmd.CLEAR_TRANSCRIPT s).1.transcript = "" ∧
    (handleUICommand outcome UICmd.CLEAR_TRANSCRIPT s).1.summary = "" ∧
    (handleUICommand outcome UICmd.CLEAR_TRANSCRIPT s).2.2 = [] ∧
    (handleUICommand outcome UICmd.CLEAR_TRANSCRIPT s).2.1 = [clearedEnvelope] ∧
    (routeMessage now (finalMsg x)
        (handleUICommand outcome UICmd.CLEAR_TRANSCRIPT s).1).1.transcript =
      transcriptLine now x := by
  refine ⟨rfl, rfl, rfl, rfl, ?_⟩
  rw [routeMessage_final, updateTranscript_transcript]
  rfl

/-! Connection manager. -/

theorem getWebSocket_no_open (s : St) (h : ¬ hasOpenSocket s) :
    getWebSocket s = startOrJoinAttempt s := by
  unfold getWebSocket
  cases hn : s.nativeWebSocket with
  | none => rfl
  | some sock =>
      have hc : ¬ sock.readyState = ReadyState.OPEN := fun hc => h ⟨sock, hn, hc⟩
      simp [hc]

theorem acquireMany_inflight (n : Nat) :
    ∀ (s : St) (a : Nat), s.connectionPromise = some a → ¬ hasOpenSocket s →
      acquireMany n s = (s, List.replicate n (AcquireResult.pendingAttempt a)) := by
  induction n with
  | zero =>
      intro s a hp h
      rfl
  | succ n ih =>
      intro s a hp h
      have hg : getWebSocket s = (s, AcquireResult.pendingAttempt a) := by
        rw [getWebSocket_no_open s h]
        unfold startOrJoinAttempt
        rw [hp]
      show (let p := getWebSocket s
            let q := acquireMany n p.1
            (q.1, p.2 :: q.2)) =
          (s, List.replicate (n + 1) (AcquireResult.pendingAttempt a))
      rw [hg]
      simp only []
      rw [ih s a hp h, List.replicate_succ]

/-- C2: while no connection is Open, an already in-flight connect attempt
is joined (no second connect is started and the state is untouched); a
whole burst of back-to-back calls from a state with no attempt starts
exactly one underlying connect, every caller receiving a handle on that
same single pending attempt (hence the same eventual connection or the
same failure); and an Open connection is returned immediately. -/
theorem C2_single_connect_attempt :
    (∀ (s : St) (sock : Socket), s.nativeWebSocket = some sock →
      sock.readyState = ReadyState.OPEN →
      getWebSocket s = (s, AcquireResult.openSocket sock.id)) ∧
    (∀ (s : St) (a : Nat), ¬ hasOpenSocket s → s.connectionPromise = some a →
      getWebSocket s = (s, AcquireResult.pendingAttempt a)) ∧
    (∀ (n : Nat) (s : St), ¬ hasOpenSocket s → s.connectionPromise = none →
      (acquireMany (n + 1) s).1.connectsStarted = s.connectsStarted + 1 ∧
      (acquireMany (n + 1) s).2 =
        List.replicate (n + 1) (AcquireResult.pendingAttempt s.nextAttemptId)) := by
  refine ⟨?_, ?_, ?_⟩
  · intro s sock hn hopen
    simp [getWebSocket, hn, hopen]
  · intro s a h hp
    rw [getWebSocket_no_open s h]
    unfold startOrJoinAttempt
    rw [hp]
  · intro n s h hp
    have hg : getWebSocket s =
        ({ s with connectionPromise := some s.nextAttemptId,
                  nextAttemptId := s.nextAttemptId + 1,
                  connectsStarted := s.connectsStarted + 1 },
         AcquireResult.pendingAttempt s.nextAttemptId) := by
      rw [getWebSocket_no_open s h]
      unfold startOrJoinAttempt
      rw [hp]
    have h1 : ¬ hasOpenSocket
        { s with connectionPromise := some s.nextAttemptId,
                 nextAttemptId := s.nextAttemptId + 1,
                 connectsStarted := s.connectsStarted + 1 } := h
    have hrest := acquireMany_inflight n
      { s with connectionPromise := some s.nextAttemptId,
               nextAttemptId := s.nextAttemptId + 1,
               connectsStarted := s.connectsStarted + 1 }
      s.nextAttemptId rfl h1
    show (let p := getWebSocket s
          let q := acquireMany n p.1
          ((q.1, p.2 :: q.2) : St × List AcquireResult)).1.connectsStarted =
        s.connectsStarted + 1 ∧
      (let p := getWebSocket s
       let q := acquireMany n p.1
       ((q.1, p.2 :: q.2) : St × List AcquireResult)).2 =
        List.replicate (n + 1) (AcquireResult.pendingAttempt s.nextAttemptId)
    rw [hg]
    simp only []
    rw [hrest]
    exact ⟨rfl, (List.replicate_succ _ _).symm⟩

/-- Witness for C2: two back-to-back calls from the initial state (no
socket, no attempt) start exactly one connect and both receive attempt 0. -/
theorem C2_witness :
    (acquireMany 2 initSt).1.connectsStarted = initSt.connectsStarted + 1 ∧
    (acquireMany 2 initSt).2 =
      List.replicate 2 (AcquireResult.pendingAttempt initSt.nextAttemptId) :=
  C2_single_connect_attempt.2.2 1 initSt
    (by rintro ⟨sock, hs, _⟩; exact Option.noConfusion hs) rfl

/-! Mutation sources of isRecording, and the health-check alarm. -/

theorem routeMessage_isRecording_other (now : Time) (m : NativeMsg) (s : St)
    (h1 : ¬ m.action = some "get_status") (h2 : ¬ m.status = some "error") :
    (routeMessage now m s).1.isRecording = s.isRecording := by
  simp only [routeMessage]
  rw [if_neg h1, if_neg h2]
  split
  · rfl
  · split
    · rfl
    · rfl

theorem handleUICommand_ok_isRecording (c : UICmd) (s : St) :
    (handleUICommand SendOutcome.ok c s).1.isRecording = s.isRecording := by
  cases c <;> rfl

/-- C8 counterexample: processing a STOP_CAPTURE UI command whose
underlying send fails does change isRecording (the catch block of
sendMessageToNative forces it to false), so isRecording is not mutated
only by the Message Router rules and the lifecycle resets, and a
START_CAPTURE or STOP_CAPTURE command can indirectly change it. -/
theorem C8_counterexample :
    c8St.isRecording = true ∧
    (step (Ev.uiCommand SendOutcome.connectFail UICmd.STOP_CAPTURE) c8St).1.isRecording
      = false :=
  ⟨rfl, rfl⟩

/-- C8 amended: isRecording changes only under a routed status report or
error message, a lifecycle reset, the socket close handler, or a handler
whose underlying send fails; the UI command handler itself never mutates
it, and START_CAPTURE or STOP_CAPTURE with a successful send leaves it
unchanged. -/
theorem C8_isRecording_mutators :
    (∀ (e : Ev) (s : St), ¬ (step e s).1.isRecording = s.isRecording →
      allowedMutator e) ∧
    (∀ (c : UICmd) (s : St),
      (step (Ev.uiCommand SendOutcome.ok c) s).1.isRecording = s.isRecording) := by
  constructor
  · intro e s h
    cases e with
    | frame now parsed =>
        cases parsed with
        | none => exact absurd rfl h
        | some m =>
            show m.action = some "get_status" ∨ m.status = some "error"
            by_cases h1 : m.action = some "get_status"
            · exact Or.inl h1
            · by_cases h2 : m.status = some "error"
              · exact Or.inr h2
              · exact absurd (routeMessage_isRecording_other now m s h1 h2) h
    | uiCommand oc c =>
        show ¬ oc = SendOutcome.ok
        intro hoc
        subst hoc
        exact h (handleUICommand_ok_isRecording c s)
    | socketClosed => exact trivial
    | alarmTick oc =>
        show ¬ oc = SendOutcome.ok
        intro hoc
        subst hoc
        apply h
        show (onAlarmTick SendOutcome.ok s).1.isRecording = s.isRecording
        unfold onAlarmTick
        split
        · rfl
        · rfl
    | popupConnect o1 o2 =>
        show ¬ o1 = SendOutcome.ok ∨ ¬ o2 = SendOutcome.ok
        by_cases ho1 : o1 = SendOutcome.ok
        · by_cases ho2 : o2 = SendOutcome.ok
          · subst ho1
            subst ho2
            exact absurd rfl h
          · exact Or.inr ho2
        · exact Or.inl ho1
    | popupDisconnect => exact absurd rfl h
    | browserStartup => exact trivial
    | extensionInstalled => exact trivial
  · exact handleUICommand_ok_isRecording

/-- Witness for the amended C8: the socket close handler is an allowed
mutator and does mutate from a recording state, while a STOP_CAPTURE with
a successful send leaves the flag alone. -/
theorem C8_witness :
    allowedMutator Ev.socketClosed ∧
    (step (Ev.uiCommand SendOutcome.ok UICmd.STOP_CAPTURE) c8St).1.isRecording
      = c8St.isRecording :=
  ⟨C8_isRecording_mutators.1 Ev.socketClosed c8St (by decide),
   C8_isRecording_mutators.2 UICmd.STOP_CAPTURE c8St⟩

theorem sendMessage_sync (oc : SendOutcome) (msg : OutMsg) (s : St)
    (h : s.alarmActive = s.isRecording) :
    (sendMessageToNative oc msg s).1.alarmActive =
      (sendMessageToNative oc msg s).1.isRecording := by
  cases oc with
  | ok => exact h
  | connectFail => exact setIsRecording_sync false s h
  | transmitFail => exact setIsRecording_sync false s h

theorem step_preserves_sync (e : Ev) (s : St) (h : s.alarmActive = s.isRecording) :
    (step e s).1.alarmActive = (step e s).1.isRecording := by
  cases e with
  | frame now parsed =>
      cases parsed with
      | none => exact h
      | some m =>
          show (routeMessage now m s).1.alarmActive = (routeMessage now m s).1.isRecording
          simp only [routeMessage]
          split
          · exact setIsRecording_sync _ s h
          · split
            · exact setIsRecording_sync false s h
            · split
              · exact h
              · split
                · exact h
                · exact h
  | uiCommand oc c =>
      cases c with
      | START_CAPTURE cfg => exact sendMessage_sync oc _ s h
      | STOP_CAPTURE => exact sendMessage_sync oc _ s h
      | CLEAR_TRANSCRIPT => exact h
      | GET_DEVICES => exact sendMessage_sync oc _ s h
      | GET_STATUS => exact sendMessage_sync oc _ s h
      | unrecognized => exact h
  | socketClosed => exact setIsRecording_sync false { s with nativeWebSocket := none } h
  | alarmTick oc =>
      show (onAlarmTick oc s).1.alarmActive = (onAlarmTick oc s).1.isRecording
      unfold onAlarmTick
      split
      · exact sendMessage_sync oc pingMsg s h
      · exact h
  | popupConnect o1 o2 =>
      exact sendMessage_sync o2 _ _
        (sendMessage_sync o1 _ { s with popupAttached := true } h)
  | popupDisconnect => exact h
  | browserStartup => exact setIsRecording_sync false s h
  | extensionInstalled => exact setIsRecording_sync false s h

theorem run_sync (evs : List Ev) :
    ∀ s : St, s.alarmActive = s.isRecording →
      (run evs s).alarmActive = (run evs s).isRecording := by
  induction evs with
  | nil =>
      intro s h
      exact h
  | cons e es ih =>
      intro s h
      exact ih (step e s).1 (step_preserves_sync e s h)

theorem sendMessage_state_cases (oc : SendOutcome) (msg : OutMsg) (s : St) :
    (sendMessageToNative oc msg s).1 = s ∨
    (sendMessageToNative oc msg s).1 = setIsRecordingStorage false s := by
  cases oc with
  | ok => exact Or.inl rfl
  | connectFail => exact Or.inr rfl
  | transmitFail => exact Or.inr rfl

theorem setIsRecording_false_idem (s : St) :
    setIsRecordingStorage false (setIsRecordingStorage false s) =
      setIsRecordingStorage false s := by
  cases hb : s.isRecording <;> simp [setIsRecordingStorage, hb]

theorem popupConnect_state_cases (o1 o2 : SendOutcome) (s : St) :
    (onPopupConnect o1 o2 s).1 = { s with popupAttached := true } ∨
    (onPopupConnect o1 o2 s).1 =
      setIsRecordingStorage false { s with popupAttached := true } := by
  cases o1 <;> cases o2 <;>
    first
      | exact Or.inl rfl
      | exact Or.inr rfl
      | exact Or.inr (setIsRecording_false_idem _)

theorem state_cases_alarm_change (r s : St) (b : Bool)
    (hc : r = s ∨ r = setIsRecordingStorage b s)
    (h : ¬ r.alarmActive = s.alarmActive) :
    ¬ r.isRecording = s.isRecording ∧ r.alarmActive = r.isRecording := by
  rcases hc with hc | hc
  · subst hc
    exact absurd rfl h
  · subst hc
    exact setIsRecording_alarm_change b s h

theorem routeMessage_alarm_change (now : Time) (m : NativeMsg) (s : St)
    (h : ¬ (routeMessage now m s).1.alarmActive = s.alarmActive) :
    ¬ (routeMessage now m s).1.isRecording = s.isRecording ∧
    (routeMessage now m s).1.alarmActive = (routeMessage now m s).1.isRecording := by
  by_cases h1 : m.action = some "get_status"
  · have e1 : (routeMessage now m s).1 =
        setIsRecordingStorage (strictEqTrue m.is_recording) s := by
      simp [routeMessage, h1]
    rw [e1] at h ⊢
    exact setIsRecording_alarm_change _ s h
  · by_cases h2 : m.status = some "error"
    · have e2 : (routeMessage now m s).1 = setIsRecordingStorage false s := by
        simp [routeMessage, h1, h2]
      rw [e2] at h ⊢
      exact setIsRecording_alarm_change false s h
    · exfalso
      apply h
      simp only [routeMessage]
      rw [if_neg h1, if_neg h2]
      split
      · rfl
      · split
        · rfl
        · rfl

theorem sendMessage_alarm_change (oc : SendOutcome) (msg : OutMsg) (s : St)
    (h : ¬ (sendMessageToNative oc msg s).1.alarmActive = s.alarmActive) :
    ¬ (sendMessageToNative oc msg s).1.isRecording = s.isRecording ∧
    (sendMessageToNative oc msg s).1.alarmActive =
      (sendMessageToNative oc msg s).1.isRecording :=
  state_cases_alarm_change _ s false (sendMessage_state_cases oc msg s) h

theorem step_alarm_change (e : Ev) (s : St)
    (h : ¬ (step e s).1.alarmActive = s.alarmActive) :
    ¬ (step e s).1.isRecording = s.isRecording ∧
    (step e s).1.alarmActive = (step e s).1.isRecording := by
  cases e with
  | frame now parsed =>
      cases parsed with
      | none => exact absurd rfl h
      | some m => exact routeMessage_alarm_change now m s h
  | uiCommand oc c =>
      cases c with
      | START_CAPTURE cfg => exact sendMessage_alarm_change oc _ s h
      | STOP_CAPTURE => exact sendMessage_alarm_change oc _ s h
      | CLEAR_TRANSCRIPT => exact absurd rfl h
      | GET_DEVICES => exact sendMessage_alarm_change oc _ s h
      | GET_STATUS => exact sendMessage_alarm_change oc _ s h
      | unrecognized => exact absurd rfl h
  | socketClosed =>
      exact setIsRecording_alarm_change false { s with nativeWebSocket := none } h
  | alarmTick oc =>
      by_cases ha : s.alarmActive = true
      · have e1 : step (Ev.alarmTick oc) s = sendMessageToNative oc pingMsg s := by
          show onAlarmTick oc s = _
          unfold onAlarmTick
          rw [if_pos ha]
        rw [e1] at h ⊢
        exact sendMessage_alarm_change oc pingMsg s h
      · have e1 : step (Ev.alarmTick oc) s = (s, [], []) := by
          show onAlarmTick oc s = _
          unfold onAlarmTick
          rw [if_neg ha]
        rw [e1] at h
        exact absurd rfl h
  | popupConnect o1 o2 =>
      exact state_cases_alarm_change _ { s with popupAttached := true } false
        (popupConnect_state_cases o1 o2 s) h
  | popupDisconnect => exact absurd rfl h
  | browserStartup => exact setIsRecording_alarm_change false s h
  | extensionInstalled => exact setIsRecording_alarm_change false s h

/-- C9: in every state reachable from the initial reset, the health-check
alarm exists exactly while isRecording is true; whenever any handler
changes the alarm, it does so only as a side effect of the recording flag
changing in the same storage write, with the alarm ending equal to the new
flag (so no command handler starts or stops it directly); each tick of the
active alarm sends exactly one ping command; and the alarm period is a
fixed sub-minute interval. -/
theorem C9_alarm_tracks_recording :
    (∀ evs : List Ev, (run evs initSt).alarmActive = (run evs initSt).isRecording) ∧
    (∀ (e : Ev) (s : St), ¬ (step e s).1.alarmActive = s.alarmActive →
      ¬ (step e s).1.isRecording = s.isRecording ∧
      (step e s).1.alarmActive = (step e s).1.isRecording) ∧
    (∀ s : St, s.alarmActive = true →
      (step (Ev.alarmTick SendOutcome.ok) s).2.2 = [pingMsg]) ∧
    alarmPeriodInMinutes < 1 ∧ 0 < alarmPeriodInMinutes := by
  refine ⟨?_, step_alarm_change, ?_, ?_, ?_⟩
  · intro evs
    exact run_sync evs initSt rfl
  · intro s hs
    show (onAlarmTick SendOutcome.ok s).2.2 = [pingMsg]
    unfold onAlarmTick
    rw [if_pos hs]
    rfl
  · norm_num [alarmPeriodInMinutes]
  · norm_num [alarmPeriodInMinutes]

/-- Witness for C9: a status report flipping the flag to true also flips
the alarm to active in the same step, and a tick of the active alarm
sends exactly one ping. -/
theorem C9_witness :
    (¬ (step (Ev.frame ⟨8, 0, 0⟩ (some c9Msg)) initSt).1.isRecording
        = initSt.isRecording ∧
      (step (Ev.frame ⟨8, 0, 0⟩ (some c9Msg)) initSt).1.alarmActive
        = (step (Ev.frame ⟨8, 0, 0⟩ (some c9Msg)) initSt).1.isRecording) ∧
    (step (Ev.alarmTick SendOutcome.ok) c9St).2.2 = [pingMsg] :=
  ⟨C9_alarm_tracks_recording.2.1 (Ev.frame ⟨8, 0, 0⟩ (some c9Msg)) initSt (by decide),
   C9_alarm_tracks_recording.2.2.1 c9St rfl⟩

end Background
